import Mathlib

/-!
# EBSA sales-intake form — verification of spec claims

Shallow embedding of the parts of the `ebsa-form` repository that the
frozen claims talk about:

* `src/src/utils/validators.ts` — RUT / phone / address validators and
  formatters (claims C3, C8);
* the `PlanSelector` component (`planesDisponibles` memo) — plan
  filtering and discount expansion (claim C4);
* the `/api/upload-file` serverless handler — MIME allow-list and the
  10 MB size ceiling (claim C5);
* the `/api/submit-form` serverless handler — Google-Sheets write,
  Supabase insert, test modes, seller/code lookups (claims C1, C2, C6,
  C7, C9, C10).

JavaScript strings are modelled as Lean `String`; absent (`undefined` /
`null`) values as `Option`; machine integers do not overflow in any of
the modelled code paths, so row numbers and byte counts are `Nat`.
Outbound API calls are modelled as an explicit effect log: the handlers
are pure functions from a request plus a backend snapshot to a response
together with the list of calls they issued, in order.
-/

namespace Js

/-- One step of JavaScript `String.prototype.toLowerCase` restricted to
the characters this code base manipulates: ASCII upper-case letters are
shifted down by 32, the Spanish upper-case vowels and Ñ/Ü map to their
lower-case forms, every other character is untouched. -/
def toLowerChar (c : Char) : Char :=
  if 65 ≤ c.toNat ∧ c.toNat ≤ 90 then Char.ofNat (c.toNat + 32)
  else if c = 'Á' then 'á'
  else if c = 'É' then 'é'
  else if c = 'Í' then 'í'
  else if c = 'Ó' then 'ó'
  else if c = 'Ú' then 'ú'
  else if c = 'Ñ' then 'ñ'
  else if c = 'Ü' then 'ü'
  else c

/-- One step of JavaScript `String.prototype.toUpperCase` (same character
range as `toLowerChar`). -/
def toUpperChar (c : Char) : Char :=
  if 97 ≤ c.toNat ∧ c.toNat ≤ 122 then Char.ofNat (c.toNat - 32)
  else if c = 'á' then 'Á'
  else if c = 'é' then 'É'
  else if c = 'í' then 'Í'
  else if c = 'ó' then 'Ó'
  else if c = 'ú' then 'Ú'
  else if c = 'ñ' then 'Ñ'
  else if c = 'ü' then 'Ü'
  else c

/-- JavaScript `s.toLowerCase()`. -/
def toLower (s : String) : String := ⟨s.data.map toLowerChar⟩

/-- JavaScript `s.toUpperCase()`. -/
def toUpper (s : String) : String := ⟨s.data.map toUpperChar⟩

/-- Truthiness of an optional JavaScript string: `undefined`/`null` and
the empty string are falsy, every other string is truthy. -/
def truthy : Option String → Bool
  | none => false
  | some s => s ≠ ""

/-- Truthiness of an optional JavaScript boolean (`undefined` is falsy). -/
def truthyB : Option Bool → Bool
  | none => false
  | some b => b

end Js

namespace Validators

/-!
## `src/src/utils/validators.ts`

The validators are regular-expression tests; the formatters are
character filters.  Everything is embedded over `List Char` and wrapped
in `String`.
-/

/-- Characters kept by `formatRut`: the source removes everything that
matches `[^\dkK]`. -/
def isRutChar (c : Char) : Bool := c.isDigit || c = 'k' || c = 'K'

/-- Characters accepted as RUT check digit by `/^\d{7,8}-[\dk]$/i`:
a digit, `k`, or (because of the `i` flag) `K`. -/
def isDv (c : Char) : Bool := c.isDigit || c = 'k' || c = 'K'

/-- `validateRut` from `validators.ts`: test of `/^\d{7,8}-[\dk]$/i`.
Because the token after the digit run is `-` (not a digit), the greedy
bounded repetition matches exactly the maximal digit prefix, so the
regex is implemented by maximal munch: the leading digit run must have
length 7 or 8 and be followed by exactly `-` and one check character. -/
def validateRut (s : String) : Bool :=
  ((s.data.takeWhile Char.isDigit).length = 7 ||
    (s.data.takeWhile Char.isDigit).length = 8) &&
    match s.data.drop (s.data.takeWhile Char.isDigit).length with
    | [h1, h2] => h1 = '-' && isDv h2
    | _ => false

/-- The shape the spec describes: a body of 7–8 digits, a dash, and one
check character (digit or `k`/`K`).  Stated independently of the regex
implementation, for the C3 refinement proof. -/
def RutShape (s : String) : Prop :=
  ∃ body dv, s.data = body ++ ['-', dv] ∧
    (body.length = 7 ∨ body.length = 8) ∧
    (∀ c ∈ body, c.isDigit) ∧ isDv dv

/-- `formatRut` from `validators.ts`:
`value.replace(/[^\dkK]/g, '')` then `.toLowerCase()`, and if more than
one character remains, insert a dash before the last one. -/
def rutClean (v : List Char) : List Char :=
  (v.filter isRutChar).map Js.toLowerChar

/-- Dash insertion step of `formatRut` (`slice(0,-1)` / `slice(-1)`). -/
def rutDash (cleaned : List Char) : List Char :=
  if cleaned.length ≤ 1 then cleaned
  else cleaned.dropLast ++ '-' :: cleaned.reverse.take 1

def formatRut (v : String) : String := ⟨rutDash (rutClean v.data)⟩

/-- `formatPhone` from `validators.ts`:
`value.replace(/\D/g, '').slice(0, 9)`. -/
def formatPhone (v : String) : String :=
  ⟨(v.data.filter Char.isDigit).take 9⟩

/-- Character class of `validateAddress` / `formatAddress`: ASCII
letters, digits, the accented vowels and ñ in both cases, blanks
(`\s` restricted to space, tab, newline, carriage return), period,
apostrophe, hash and dash. -/
def isAddressChar (c : Char) : Bool :=
  c.isAlpha || c.isDigit ||
  c = 'á' || c = 'é' || c = 'í' || c = 'ó' || c = 'ú' ||
  c = 'Á' || c = 'É' || c = 'Í' || c = 'Ó' || c = 'Ú' ||
  c = 'ñ' || c = 'Ñ' ||
  c = ' ' || c = '\t' || c = '\n' || c = '\r' ||
  c = '.' || c = '\x27' || c = '#' || c = '-'

/-- `formatAddress` from `validators.ts`: delete every character outside
the allowed class. -/
def formatAddress (v : String) : String :=
  ⟨v.data.filter isAddressChar⟩

example : validateRut "12345678-9" = true := by decide
example : validateRut "1234567-k" = true := by decide
example : validateRut "1234567" = false := by decide
example : validateRut "123456789-1" = false := by decide
example : formatRut "12.345.678-9" = "12345678-9" := by decide
example : formatRut "123456789" = "12345678-9" := by decide
example : formatRut "1K" = "1-k" := by decide
example : formatPhone "+56 9 8765 4321" = "569876543" := by decide
example : formatPhone "9876543219999" = "987654321" := by decide
example : formatAddress "Av. Libertador 123 @ #45" = "Av. Libertador 123  #45" := by decide

/-! ### Character-level facts used by the validator proofs -/

lemma ne_of_toNat_ne {c d : Char} (h : c.toNat ≠ d.toNat) : c ≠ d :=
  fun he => h (by rw [he])

lemma isDigit_toNat {c : Char} (h : c.isDigit = true) : 48 ≤ c.toNat ∧ c.toNat ≤ 57 := by
  simp only [Char.isDigit, Bool.and_eq_true, decide_eq_true_eq] at h
  exact ⟨UInt32.le_toNat_of_le (by norm_num [UInt32.size]) h.1,
    UInt32.toNat_le_of_le (by norm_num [UInt32.size]) h.2⟩

lemma toLowerChar_of_isDigit {c : Char} (h : c.isDigit = true) : Js.toLowerChar c = c := by
  have hn := isDigit_toNat h
  have h65 : ¬ (65 ≤ c.toNat ∧ c.toNat ≤ 90) := by omega
  have hA : c ≠ 'Á' := ne_of_toNat_ne (by have : ('Á').toNat = 193 := (by decide); omega)
  have hE : c ≠ 'É' := ne_of_toNat_ne (by have : ('É').toNat = 201 := (by decide); omega)
  have hI : c ≠ 'Í' := ne_of_toNat_ne (by have : ('Í').toNat = 205 := (by decide); omega)
  have hO : c ≠ 'Ó' := ne_of_toNat_ne (by have : ('Ó').toNat = 211 := (by decide); omega)
  have hU : c ≠ 'Ú' := ne_of_toNat_ne (by have : ('Ú').toNat = 218 := (by decide); omega)
  have hN : c ≠ 'Ñ' := ne_of_toNat_ne (by have : ('Ñ').toNat = 209 := (by decide); omega)
  have hUe : c ≠ 'Ü' := ne_of_toNat_ne (by have : ('Ü').toNat = 220 := (by decide); omega)
  simp [Js.toLowerChar, h65, hA, hE, hI, hO, hU, hN, hUe]

lemma isRutChar_cases {c : Char} (h : isRutChar c = true) :
    c.isDigit = true ∨ c = 'k' ∨ c = 'K' := by
  simpa [isRutChar, or_assoc] using h

lemma rutLower {c : Char} (h : isRutChar c = true) :
    (Js.toLowerChar c).isDigit = true ∨ Js.toLowerChar c = 'k' := by
  rcases isRutChar_cases h with hd | rfl | rfl
  · exact Or.inl (by rw [toLowerChar_of_isDigit hd]; exact hd)
  · right; decide
  · right; decide

lemma mem_rutClean {v : List Char} {c : Char} (h : c ∈ rutClean v) :
    c.isDigit = true ∨ c = 'k' := by
  unfold rutClean at h
  obtain ⟨c₀, hc₀, rfl⟩ := List.mem_map.mp h
  exact rutLower (List.of_mem_filter hc₀)

lemma rutKeep {c : Char} (h : c.isDigit = true ∨ c = 'k') :
    isRutChar c = true ∧ Js.toLowerChar c = c := by
  rcases h with hd | rfl
  · exact ⟨by simp [isRutChar, hd], toLowerChar_of_isDigit hd⟩
  · exact ⟨by decide, by decide⟩

lemma rutClean_fixed {l : List Char} (h : ∀ c ∈ l, c.isDigit = true ∨ c = 'k') :
    rutClean l = l := by
  unfold rutClean
  rw [List.filter_eq_self.mpr (fun a ha => (rutKeep (h a ha)).1)]
  have hm : l.map Js.toLowerChar = l.map id :=
    List.map_congr_left (fun a ha => (rutKeep (h a ha)).2)
  simpa using hm

lemma dropLast_append_revTake (l : List Char) (h : l ≠ []) :
    l.dropLast ++ l.reverse.take 1 = l := by
  induction l using List.reverseRecOn with
  | nil => cases h rfl
  | append_singleton xs x ih => simp

lemma rutClean_rutDash {l : List Char} (h : ∀ c ∈ l, c.isDigit = true ∨ c = 'k')
    (hlen : 1 < l.length) : rutClean (rutDash l) = l := by
  have hne : l ≠ [] := by intro he; rw [he] at hlen; simp at hlen
  rw [rutDash, if_neg (by omega)]
  unfold rutClean
  have hA : ∀ c ∈ l.dropLast, isRutChar c = true :=
    fun c hc => (rutKeep (h c (List.dropLast_subset l hc))).1
  have hB : ∀ c ∈ l.reverse.take 1, isRutChar c = true :=
    fun c hc => (rutKeep (h c (List.mem_reverse.mp (List.mem_of_mem_take hc)))).1
  have hdashc : isRutChar '-' = false := by decide
  rw [List.filter_append, List.filter_cons, hdashc]
  simp only [Bool.false_eq_true, if_false]
  rw [List.filter_eq_self.mpr hA, List.filter_eq_self.mpr hB]
  have hall : ∀ c ∈ l.dropLast ++ l.reverse.take 1, Js.toLowerChar c = c := by
    intro c hc
    rcases List.mem_append.mp hc with hc | hc
    · exact (rutKeep (h c (List.dropLast_subset l hc))).2
    · exact (rutKeep (h c (List.mem_reverse.mp (List.mem_of_mem_take hc)))).2
  have hm : (l.dropLast ++ l.reverse.take 1).map Js.toLowerChar
      = (l.dropLast ++ l.reverse.take 1).map id := List.map_congr_left hall
  rw [hm]
  simpa using dropLast_append_revTake l hne

lemma rutDash_clean_idem {l : List Char} (h : ∀ c ∈ l, c.isDigit = true ∨ c = 'k') :
    rutDash (rutClean (rutDash l)) = rutDash l := by
  by_cases hlen : l.length ≤ 1
  · have h1 : rutDash l = l := by rw [rutDash, if_pos hlen]
    rw [h1, rutClean_fixed h, h1]
  · push_neg at hlen
    rw [rutClean_rutDash h hlen]

lemma formatRut_idem (v : String) : formatRut (formatRut v) = formatRut v :=
  congrArg String.mk (rutDash_clean_idem (fun _ hc => mem_rutClean hc))

lemma formatPhone_idem (v : String) : formatPhone (formatPhone v) = formatPhone v := by
  refine congrArg String.mk ?_
  show (((v.data.filter Char.isDigit).take 9).filter Char.isDigit).take 9 = _
  rw [List.filter_eq_self.mpr
    (fun a ha => List.of_mem_filter (List.mem_of_mem_take ha)), List.take_take]
  norm_num

lemma formatAddress_idem (v : String) :
    formatAddress (formatAddress v) = formatAddress v := by
  refine congrArg String.mk ?_
  show (v.data.filter isAddressChar).filter isAddressChar = _
  rw [List.filter_eq_self.mpr (fun a ha => List.of_mem_filter ha)]

/-- C8: the formatting functions of `validators.ts` are idempotent —
formatting an already-formatted RUT, phone number, or address returns
the same value. -/
theorem C8_formatters_idempotent (v : String) :
    formatRut (formatRut v) = formatRut v ∧
    formatPhone (formatPhone v) = formatPhone v ∧
    formatAddress (formatAddress v) = formatAddress v :=
  ⟨formatRut_idem v, formatPhone_idem v, formatAddress_idem v⟩

/-- C3: `validateRut` accepts a string exactly when it consists of a
body of 7–8 digits, a dash, and one check character (digit or `k`/`K`,
the `K` admitted by the regex flag `i`); every other shape is rejected. -/
theorem C3_validateRut_iff_shape (s : String) : validateRut s = true ↔ RutShape s := by
  constructor
  · intro h
    unfold validateRut at h
    simp only [Bool.and_eq_true, Bool.or_eq_true, decide_eq_true_eq] at h
    obtain ⟨hlen, hrest⟩ := h
    obtain ⟨t, ht⟩ := List.takeWhile_prefix Char.isDigit (l := s.data)
    have hdig : ∀ c ∈ s.data.takeWhile Char.isDigit, c.isDigit = true :=
      fun c hc => List.mem_takeWhile_imp hc
    generalize hB : s.data.takeWhile Char.isDigit = B at hlen hrest ht hdig
    have hdrop : s.data.drop B.length = t := by rw [← ht, List.drop_left]
    rw [hdrop] at hrest
    rcases t with _ | ⟨a, _ | ⟨b, _ | ⟨c, u⟩⟩⟩
    · exact absurd hrest (by simp)
    · exact absurd hrest (by simp)
    · change (decide (a = '-') && isDv b) = true at hrest
      simp only [Bool.and_eq_true, decide_eq_true_eq] at hrest
      refine ⟨B, b, ?_, hlen, hdig, hrest.2⟩
      rw [← ht, hrest.1]
    · exact absurd hrest (by simp)
  · rintro ⟨body, dv, hs, hlen, hdig, hdv⟩
    unfold validateRut
    have htw : s.data.takeWhile Char.isDigit = body := by
      rw [hs, List.takeWhile_append_of_pos hdig, List.takeWhile_cons_of_neg (by decide)]
      simp
    rw [htw, hs, List.drop_left]
    rcases hlen with h | h <;> simp [h, hdv]

end Validators

namespace PlanSelector

/-!
## `PlanSelector` — the `planesDisponibles` memo

Embedding of the plan-filtering and discount-expansion logic of the
`PlanSelector` React component.  A plan row as loaded from the
`planes_active` view (`PlanDB`), the UI option record (`Plan`), and the
pure computation of the `useMemo` body.
-/

/-- A plan row as loaded from Supabase (`Plan` in `supabaseQueries.ts`). -/
structure PlanDB where
  nombre : String
  marca : String
  segmento : String
  categoria : String
  precio : Int
  descuento_nacional : Option Int
  descuento_especial : Option Int
  duracion : String
  rgu : Nat
  internet_activo : Bool
  internet_velocidad : Option String
  television_activa : Bool
  television_plan : Option String
  telefonia_activa : Bool
  disponible : Bool
  deriving DecidableEq

/-- The UI option record built by `convertirPlan` (the nested `servicios`
object is flattened into fields). -/
structure Plan where
  nombre : String
  precio : Int
  descuento_nacional : Int
  descuento_especial : Option Int
  duracion : String
  rgu : Nat
  internet_activo : Bool
  internet_velocidad : Option String
  television_activa : Bool
  television_plan_tv : Option String
  telefonia_activa : Bool
  deriving DecidableEq

/-- `word.charAt(0).toUpperCase() + word.slice(1)` (charAt of the empty
string is the empty string). -/
def capFirst (s : String) : String :=
  match s.data with
  | [] => ""
  | c :: rest => ⟨Js.toUpperChar c :: rest⟩

/-- JavaScript ternary `x ? f(x) : null` on a string-or-null value:
`null` and the empty string give `null`. -/
def mapTruthy (f : String → String) : Option String → Option String
  | none => none
  | some s => if s = "" then none else some (f s)

/-- The acronym words kept upper-case by `normalizarNombre`. -/
def siglas : List (List Char) := ["mb".data, "gb".data, "tv".data, "rgu".data]

/-- JavaScript `s.split(' ')` on the underlying character list: split at
every single space (adjacent spaces give empty words). -/
def splitSpaces : List Char → List (List Char)
  | [] => [[]]
  | c :: rest =>
    if c = ' ' then [] :: splitSpaces rest
    else
      match splitSpaces rest with
      | [] => [[c]]
      | w :: ws => (c :: w) :: ws

/-- JavaScript `words.join(' ')`. -/
def joinSpaces : List (List Char) → List Char
  | [] => []
  | [w] => w
  | w :: ws => w ++ ' ' :: joinSpaces ws

/-- One word of `normalizarNombre`: a 2–3 ASCII-letter word in the
acronym list is upper-cased, every other word gets its first character
capitalised (`/^[a-z]{2,3}$/i` test plus list membership). -/
def normalizarWord (w : List Char) : List Char :=
  if ((w.length = 2 || w.length = 3) && w.all Char.isAlpha)
      && siglas.contains (w.map Js.toLowerChar) then w.map Js.toUpperChar
  else
    match w with
    | [] => []
    | c :: rest => Js.toUpperChar c :: rest

/-- `normalizarNombre` from `PlanSelector`: lower-case, split on single
spaces, normalise each word, re-join. -/
def normalizarNombre (nombre : String) : String :=
  ⟨joinSpaces ((splitSpaces (Js.toLower nombre).data).map normalizarWord)⟩

/-- `convertirPlan` from `PlanSelector` (helper closing over the DB row
and the brand). -/
def convertirPlan (marca : String) (planDB : PlanDB) (nombre : String)
    (descuentoNacional : Int) (descuentoEspecial : Option Int) : Plan :=
  { nombre := normalizarNombre nombre ++ " - " ++ Js.toUpper marca
    precio := planDB.precio
    descuento_nacional := descuentoNacional
    descuento_especial := descuentoEspecial
    duracion := planDB.duracion
    rgu := planDB.rgu
    internet_activo := planDB.internet_activo
    internet_velocidad := mapTruthy Js.toUpper planDB.internet_velocidad
    television_activa := planDB.television_activa
    television_plan_tv := mapTruthy capFirst planDB.television_plan
    telefonia_activa := planDB.telefonia_activa }

/-- `planDB.descuento_nacional !== null && planDB.descuento_nacional > 0`. -/
def hasNac (p : PlanDB) : Bool :=
  match p.descuento_nacional with
  | some d => d > 0
  | none => false

/-- `planDB.descuento_especial !== null && planDB.descuento_especial > 0`. -/
def hasEsp (p : PlanDB) : Bool :=
  match p.descuento_especial with
  | some d => d > 0
  | none => false

/-- The per-plan body of the `planesFiltrados.forEach` loop: one option
pushed for a carried national discount, one for a carried special
discount, and the plain plan when neither discount is carried. -/
def expandPlan (marca : String) (p : PlanDB) : List Plan :=
  (if hasNac p then
    [convertirPlan marca p (p.nombre ++ " (Descuento Nacional)")
      (p.descuento_nacional.getD 0) none] else []) ++
  (if hasEsp p then
    [convertirPlan marca p (p.nombre ++ " (Descuento Especial)")
      0 p.descuento_especial] else []) ++
  (if !hasNac p && !hasEsp p then
    [convertirPlan marca p p.nombre (p.descuento_nacional.getD 0)
      p.descuento_especial] else [])

/-- Category bucket: `paquetizacion` for that sale type, otherwise
`"${serviciosActivos}_rgu"`. -/
def categoriaFor (tipoVenta : String) (n : Nat) : String :=
  if tipoVenta = "paquetizacion" then "paquetizacion" else toString n ++ "_rgu"

/-- The second `planesFiltrados.filter` callback, with its sequential
early returns: service flags must equal the selections, and for a
residential customer with a (truthy) selected speed / TV tier the plan
row must carry exactly that speed / tier after lower-casing. -/
def codeFilter (segmento : String) (hasI hasT hasTel : Bool)
    (vel tipoTV : String) (p : PlanDB) : Bool :=
  if p.internet_activo ≠ hasI then false
  else if p.television_activa ≠ hasT then false
  else if p.telefonia_activa ≠ hasTel then false
  else if hasI = true ∧ segmento = "residencial" ∧ vel ≠ "" ∧
      p.internet_velocidad ≠ some (Js.toLower vel) then false
  else if hasT = true ∧ segmento = "residencial" ∧ tipoTV ≠ "" ∧
      p.television_plan ≠ some (Js.toLower tipoTV) then false
  else true

/-- The `planesDisponibles` `useMemo` body: early `[]` on an empty load,
category bucket from the count of active services, two filter passes,
then the discount expansion. -/
def planesDisponibles (marca segmento tipoVenta : String)
    (hasI hasT hasTel : Bool) (vel tipoTV : String)
    (planesDB : List PlanDB) : List Plan :=
  if planesDB.length = 0 then []
  else
    ((planesDB.filter (fun p =>
        p.categoria = categoriaFor tipoVenta
          (([hasI, hasT, hasTel].filter (fun b => b)).length))).filter
      (codeFilter segmento hasI hasT hasTel vel tipoTV)).flatMap (expandPlan marca)

/-- The filter as the claim states it, for the residential
internet+TV, no-telephony scenario: category `2_rgu`, service flags
`(true, true, false)`, and speed / TV tier equal to the user selection
after lower-casing. -/
def claimPred (vel tipoTV : String) (p : PlanDB) : Bool :=
  decide (p.categoria = "2_rgu") && p.internet_activo && p.television_activa &&
  !p.telefonia_activa && decide (p.internet_velocidad = some (Js.toLower vel)) &&
  decide (p.television_plan = some (Js.toLower tipoTV))

lemma codeFilter_residential {vel tipoTV : String} (hvel : vel ≠ "") (htv : tipoTV ≠ "")
    (p : PlanDB) :
    codeFilter "residencial" true true false vel tipoTV p
      = (p.internet_activo && p.television_activa && !p.telefonia_activa &&
        decide (p.internet_velocidad = some (Js.toLower vel)) &&
        decide (p.television_plan = some (Js.toLower tipoTV))) := by
  unfold codeFilter
  by_cases h1 : p.internet_activo = true
  · by_cases h2 : p.television_activa = true
    · by_cases h3 : p.telefonia_activa = true
      · simp [h1, h2, h3]
      · by_cases h4 : p.internet_velocidad = some (Js.toLower vel)
        · by_cases h5 : p.television_plan = some (Js.toLower tipoTV)
          · simp [h1, h2, h3, h4, h5, hvel, htv]
          · simp [h1, h2, h3, h4, h5, hvel, htv]
        · simp [h1, h2, h3, h4, hvel]
    · simp [h1, h2, Bool.not_eq_true _ ▸ h2]
  · simp [h1]

/-- C4: for the residential segment with internet and television
selected, telephony not selected, a non-paquetizacion sale type and a
selected speed and TV tier, the option list is exactly the loaded plans
of category `2_rgu` with service flags `(true, true, false)` and
matching (lower-cased) speed and tier, each expanded into its discount
options (one per carried national / special discount, the plain plan
when it carries none). -/
theorem C4_plan_filtering (marca tipoVenta vel tipoTV : String)
    (planesDB : List PlanDB) (hventa : tipoVenta ≠ "paquetizacion")
    (hvel : vel ≠ "") (htv : tipoTV ≠ "") :
    planesDisponibles marca "residencial" tipoVenta true true false vel tipoTV planesDB
      = (planesDB.filter (claimPred vel tipoTV)).flatMap (expandPlan marca) := by
  unfold planesDisponibles
  by_cases hnil : planesDB.length = 0
  · rw [if_pos hnil, List.length_eq_zero.mp hnil]
    rfl
  · rw [if_neg hnil]
    have hcat : categoriaFor tipoVenta (([true, true, false].filter (fun b => b)).length)
        = "2_rgu" := by
      unfold categoriaFor
      rw [if_neg hventa]
      rfl
    rw [hcat, List.filter_filter]
    refine congrArg (fun l => List.flatMap l (expandPlan marca)) ?_
    refine List.filter_congr (fun p _ => ?_)
    rw [codeFilter_residential hvel htv]
    unfold claimPred
    by_cases hc : p.categoria = "2_rgu" <;> cases hia : p.internet_activo <;>
      simp [hc, hia, Bool.and_comm, Bool.and_assoc, Bool.and_left_comm]

/-- A concrete residential 2-RGU plan row used to instantiate C4. -/
def demoPlan : PlanDB :=
  { nombre := "2 play plus fibra hogar", marca := "vtr", segmento := "residencial"
    categoria := "2_rgu", precio := 41990, descuento_nacional := some 11000
    descuento_especial := some 15000, duracion := "12 meses", rgu := 2
    internet_activo := true, internet_velocidad := some "600mb"
    television_activa := true, television_plan := some "plus"
    telefonia_activa := false, disponible := true }

theorem C4_plan_filtering_witness :
    planesDisponibles "vtr" "residencial" "nueva" true true false "600MB" "Plus" [demoPlan]
      = ([demoPlan].filter (claimPred "600MB" "Plus")).flatMap (expandPlan "vtr") :=
  C4_plan_filtering "vtr" "nueva" "600MB" "Plus" [demoPlan]
    (by decide) (by decide) (by decide)

example :
    planesDisponibles "vtr" "residencial" "nueva" true true false "600MB" "Plus" [demoPlan]
      = [convertirPlan "vtr" demoPlan "2 play plus fibra hogar (Descuento Nacional)" 11000 none,
         convertirPlan "vtr" demoPlan "2 play plus fibra hogar (Descuento Especial)" 0 (some 15000)] := by
  decide

end PlanSelector

namespace UploadFile

/-!
## `/api/upload-file`

Embedding of the serverless upload handler.  The R2 `PutObjectCommand`
becomes an entry in the `puts` list of the result; the response message is
kept structured (constructor per branch) instead of the formatted
strings of the source, whose only non-constant part is the data the
constructors carry.
-/

/-- `MAX_FILE_SIZE = 10 * 1024 * 1024`. -/
def maxFileSize : Nat := 10 * 1024 * 1024

/-- `ALLOWED_TYPES`: allow-listed MIME types mapped to extensions. -/
def allowedExt (ct : String) : Option String :=
  if ct = "image/jpeg" then some "jpg"
  else if ct = "image/jpg" then some "jpg"
  else if ct = "image/png" then some "png"
  else if ct = "image/webp" then some "webp"
  else if ct = "application/pdf" then some "pdf"
  else none

/-- One entry of `CATEGORIA_CONFIG`. -/
structure CatConfig where
  folder : String
  suffix : String
  deriving DecidableEq

/-- `CATEGORIA_CONFIG`: category to folder / file-name suffix. -/
def categoriaConfig (c : String) : Option CatConfig :=
  if c = "rut-frontal" then some ⟨"rut-frontal", "frontal"⟩
  else if c = "rut-posterior" then some ⟨"rut-posterior", "posterior"⟩
  else if c = "factibilidad-app" then some ⟨"factibilidad-app", "factibilidad"⟩
  else if c = "otros-documentos" then some ⟨"otros-documentos", "doc"⟩
  else none

/-- `sanitizeRut`: drop dots and dashes (`replace(/[.-]/g, '')`). -/
def sanitizeRut (rut : String) : String :=
  ⟨rut.data.filter (fun c => !(c = '.' || c = '-'))⟩

/-- Base64 alphabet characters (padding `=` carries no payload). -/
def isB64Char (c : Char) : Bool := c.isAlphanum || c = '+' || c = '/'

/-- Scanner for the non-greedy `.*?;base64,` part of
`/^data:.*?;base64,/`: consume characters (where `.` in the regex matches no
line break) until the first `;base64,`, returning what follows it. -/
def scanB64Sep : List Char → Option (List Char)
  | [] => none
  | c :: rest =>
    if (";base64,".data).isPrefixOf (c :: rest) then some ((c :: rest).drop 8)
    else if c = '\n' ∨ c = '\r' then none
    else scanB64Sep rest

/-- `file.replace(/^data:.*?;base64,/, '')`: strip a data-URL header
when one is present. -/
def stripDataUrl (s : String) : String :=
  if ("data:".data).isPrefixOf s.data then
    match scanB64Sep (s.data.drop 5) with
    | some rest => ⟨rest⟩
    | none => s
  else s

/-- Length of the buffer Node decodes from the base64 payload, for canonical base64
input: every 4 alphabet characters decode to 3 bytes, a trailing
partial group of 2 or 3 characters to 1 or 2 bytes (`=` padding and
characters outside the alphabet carry no payload, matching the decoder
of Node on the inputs the client produces). -/
def decodedLen (file : String) : Nat :=
  ((stripDataUrl file).data.filter isB64Char).length * 3 / 4

/-- The upload request body (plus the HTTP method). -/
structure Request where
  method : String
  file : Option String
  filename : Option String
  contentType : Option String
  categoria : Option String
  rut : Option String
  docNumber : Option Nat

/-- Which response branch was taken, with the data it reports. -/
inductive Msg
  | preflight
  | methodNotAllowed
  | missingFields
  | invalidCategoria (c : String)
  | invalidTipo (ct : String)
  | tooLarge (bytes : Nat)
  | uploaded
  deriving DecidableEq

/-- One `PutObjectCommand` sent to object storage. -/
structure PutCall where
  key : String
  contentType : String
  size : Nat
  deriving DecidableEq

/-- The observable outcome of the handler: HTTP status, response fields, and
the object-storage puts it performed. -/
structure Result where
  status : Nat
  success : Bool
  msg : Msg
  url : Option String
  key : Option String
  size : Option Nat
  puts : List PutCall
  deriving DecidableEq

/-- `docNumber || 1` (zero and `undefined` are falsy). -/
def docNum (o : Option Nat) : Nat :=
  match o with
  | some n => if n = 0 then 1 else n
  | none => 1

/-- The `/api/upload-file` handler as a pure function. -/
def handler (req : Request) : Result :=
  if req.method = "OPTIONS" then ⟨200, true, .preflight, none, none, none, []⟩
  else if req.method ≠ "POST" then ⟨405, false, .methodNotAllowed, none, none, none, []⟩
  else if ¬ (Js.truthy req.file = true ∧ Js.truthy req.filename = true ∧
      Js.truthy req.contentType = true ∧ Js.truthy req.categoria = true ∧
      Js.truthy req.rut = true) then
    ⟨400, false, .missingFields, none, none, none, []⟩
  else
    match categoriaConfig (req.categoria.getD "") with
    | none => ⟨400, false, .invalidCategoria (req.categoria.getD ""), none, none, none, []⟩
    | some config =>
      match allowedExt (req.contentType.getD "") with
      | none => ⟨400, false, .invalidTipo (req.contentType.getD ""), none, none, none, []⟩
      | some ext =>
        let bufLen := decodedLen (req.file.getD "")
        if bufLen > maxFileSize then
          ⟨400, false, .tooLarge bufLen, none, none, none, []⟩
        else
          let fileName :=
            if req.categoria.getD "" = "otros-documentos" then
              sanitizeRut (req.rut.getD "") ++ "-" ++ config.suffix ++ "-" ++
                toString (docNum req.docNumber) ++ "." ++ ext
            else
              sanitizeRut (req.rut.getD "") ++ "-" ++ config.suffix ++ "." ++ ext
          let key := config.folder ++ "/" ++ fileName
          ⟨200, true, .uploaded, some ("https://ebsaspa.cl/" ++ key), some key,
            some bufLen, [⟨key, req.contentType.getD "", bufLen⟩]⟩

example :
    handler ⟨"POST", some "QUJD", some "c.jpg", some "image/jpeg",
        some "rut-frontal", some "12345678-9", none⟩
      = ⟨200, true, .uploaded, some "https://ebsaspa.cl/rut-frontal/123456789-frontal.jpg",
          some "rut-frontal/123456789-frontal.jpg", some 3,
          [⟨"rut-frontal/123456789-frontal.jpg", "image/jpeg", 3⟩]⟩ := by decide

example :
    handler ⟨"POST", some "QUJD", some "c.gif", some "image/gif",
        some "rut-frontal", some "12345678-9", none⟩
      = ⟨400, false, .invalidTipo "image/gif", none, none, none, []⟩ := by decide

/-- C5: a POST upload whose required fields are present is rejected with
status 400 and no object-storage put when its decoded payload exceeds
the 10 MB ceiling (with the response reporting the size limit branch),
and likewise rejected with 400 and no put when its contentType is
outside the allow-list. -/
theorem C5_upload_limits (req : Request)
    (hm : req.method = "POST")
    (hf : Js.truthy req.file = true) (hn : Js.truthy req.filename = true)
    (hc : Js.truthy req.contentType = true) (hk : Js.truthy req.categoria = true)
    (hr : Js.truthy req.rut = true) :
    ((categoriaConfig (req.categoria.getD "")).isSome = true →
      (allowedExt (req.contentType.getD "")).isSome = true →
      decodedLen (req.file.getD "") > maxFileSize →
      (handler req).status = 400 ∧
      (handler req).msg = Msg.tooLarge (decodedLen (req.file.getD "")) ∧
      (handler req).puts = []) ∧
    (allowedExt (req.contentType.getD "") = none →
      (handler req).status = 400 ∧ (handler req).puts = []) := by
  unfold handler
  rw [hm]
  rw [if_neg (by decide : ¬ ("POST" = "OPTIONS"))]
  rw [if_neg (not_not_intro (rfl : "POST" = "POST"))]
  rw [if_neg (not_not_intro ⟨hf, hn, hc, hk, hr⟩)]
  constructor
  · intro hcat hct hbig
    cases hcfg : categoriaConfig (req.categoria.getD "") with
    | none => rw [hcfg] at hcat; simp at hcat
    | some config =>
      cases hext : allowedExt (req.contentType.getD "") with
      | none => rw [hext] at hct; simp at hct
      | some ext =>
        simp [if_pos hbig]
  · intro hnone
    cases hcfg : categoriaConfig (req.categoria.getD "") with
    | none => exact ⟨rfl, rfl⟩
    | some config =>
      rw [hnone]
      exact ⟨rfl, rfl⟩

/-- A canonical base64 payload (all `A`s) decoding to 15 MB, the spec
scenario of an oversized JPEG. -/
def bigFile : String := ⟨List.replicate 20971520 'A'⟩

/-- The oversized-JPEG request of the spec scenario. -/
def bigReq : Request :=
  ⟨"POST", some bigFile, some "carnet.jpg", some "image/jpeg",
    some "rut-frontal", some "12345678-9", none⟩

lemma stripDataUrl_repA (n : Nat) :
    stripDataUrl ⟨List.replicate n 'A'⟩ = ⟨List.replicate n 'A'⟩ := by
  unfold stripDataUrl
  rw [if_neg]
  intro h
  rw [show (⟨List.replicate n 'A'⟩ : String).data = List.replicate n 'A' from rfl] at h
  cases n with
  | zero => exact absurd h (by decide)
  | succ m =>
    rw [List.replicate_succ, show "data:".data = 'd' :: "ata:".data from rfl] at h
    simp [List.isPrefixOf] at h

lemma decodedLen_repA (n : Nat) :
    decodedLen (⟨List.replicate n 'A'⟩ : String) = n * 3 / 4 := by
  unfold decodedLen
  rw [stripDataUrl_repA]
  rw [show (⟨List.replicate n 'A'⟩ : String).data = List.replicate n 'A' from rfl]
  rw [List.filter_eq_self.mpr (fun a ha => by rw [List.eq_of_mem_replicate ha]; decide)]
  rw [List.length_replicate]

lemma truthy_repA (n : Nat) (h : n ≠ 0) :
    Js.truthy (some (⟨List.replicate n 'A'⟩ : String)) = true := by
  unfold Js.truthy
  simp only [decide_eq_true_eq]
  intro he
  have hd := congrArg String.data he
  rw [show (⟨List.replicate n 'A'⟩ : String).data = List.replicate n 'A' from rfl] at hd
  simp only [show ("" : String).data = [] from rfl, List.replicate_eq_nil_iff] at hd
  exact h hd

theorem C5_upload_limits_witness :
    (handler bigReq).status = 400 ∧
    (handler bigReq).msg = Msg.tooLarge (decodedLen (bigReq.file.getD "")) ∧
    (handler bigReq).puts = [] := by
  refine (C5_upload_limits bigReq rfl ?_ (by decide) (by decide) (by decide) (by decide)).1
    (by decide) (by decide) ?_
  · exact truthy_repA 20971520 (by norm_num)
  · show decodedLen (⟨List.replicate 20971520 'A'⟩ : String) > maxFileSize
    rw [decodedLen_repA]
    norm_num [maxFileSize]

end UploadFile

namespace SubmitForm

/-!
## `/api/submit-form`

Embedding of the submission handler.  The Google-Sheets and Supabase
calls the handler issues become explicit effect lists; the backend
snapshot (`Backend`) supplies everything the handler reads from
outside: the number of entries in column `Q`, the sheet metadata, the
rows of the `vendedores` / `codigos_vendedor` tables answering the two
`ilike(...).single()` lookups, the outcome of the `pedidos` insert, and
the wall-clock timestamp (`formatTimestamp` is real time in the Chile
zone, modelled as an opaque backend-supplied string).
-/

/-- The form payload.  String / boolean / array fields may be absent
(`undefined`), hence `Option`; `numKeys` carries
`Object.keys(formData).length`, which in the JSON request depends on
the exact key set sent and is not derivable from a fixed field list. -/
structure FormData where
  selectedVendedor : Option String
  selectedCodigo : Option String
  selectedMarca : Option String
  selectedTipoVenta : Option String
  selectedSegmento : Option String
  tipoAgente : Option String
  emailEquipo : Option String
  equipo : Option String
  comentarioVendedor : Option String
  rut : Option String
  nombres : Option String
  apellidos : Option String
  rutEmpresa : Option String
  nombreEmpresa : Option String
  region : Option String
  comuna : Option String
  direccion : Option String
  numeroContacto : Option String
  email : Option String
  selectedPlan : Option String
  selectedAdicionales : Option (List String)
  hasInternet : Option Bool
  hasTelevision : Option Bool
  hasTelefonia : Option Bool
  velocidadInternet : Option String
  tipoTelevision : Option String
  fechaAgendamiento : Option String
  tramoInstalacion : Option String
  tipoCampana : Option String
  rutFrontalUrls : Option (List String)
  rutPosteriorUrls : Option (List String)
  factibilidadUrls : Option (List String)
  otrosDocumentosUrls : Option (List String)
  numKeys : Nat
  deriving DecidableEq

/-- The HTTP request: method, `?test=` query parameter, body. -/
structure Request where
  method : String
  testMode : Option String
  formData : FormData

/-- Grid properties of the `Fijo_EBSA` tab when it is found in the
spreadsheet metadata. -/
structure GridProps where
  sheetId : Nat
  rowCount : Nat
  deriving DecidableEq

/-- Everything the handler reads from the outside world. -/
structure Backend where
  qColLen : Nat
  fijoSheet : Option GridProps
  vendedores : List String
  codigos : List String
  insertFails : Bool
  insertId : String
  timestamp : String

/-- A spreadsheet cell value (`RGU` is written as a number, everything
else as a string). -/
inductive Cell
  | str (v : String)
  | num (v : Nat)
  deriving DecidableEq

/-- One range of the `values.batchUpdate` payload:
`Fijo_EBSA!{col}{row}` with a single value. -/
structure CellWrite where
  col : String
  row : Nat
  value : Cell
  deriving DecidableEq

/-- One Google-Sheets API call. -/
inductive SheetsCall
  | getValues (range : String)
  | getSpreadsheet
  | appendRows (sheetId : Nat) (len : Nat)
  | writeCells (data : List CellWrite)
  deriving DecidableEq

/-- The row inserted into the `pedidos` table. -/
structure Pedido where
  observacion_vendedor : Option String
  marca : Option String
  codigo_vendedor : Option String
  tipo_venta : Option String
  segmento : Option String
  tipo_agente : Option String
  equipo_id : Option String
  vendedor_id : Option String
  rut : Option String
  nombres : Option String
  apellidos : Option String
  rut_empresa : Option String
  nombre_empresa : Option String
  region : Option String
  comuna : Option String
  direccion : Option String
  numero_contacto : Option String
  email : Option String
  plan : Option String
  productos_adicionales : Option String
  rgu : Nat
  tiene_internet : Bool
  tiene_television : Bool
  tiene_telefonia : Bool
  velocidad_internet : Option String
  tipo_television : Option String
  fecha_agendamiento : Option String
  tramo_instalacion : Option String
  rut_frontal_url : Option String
  rut_posterior_url : Option String
  factibilidad_url : Option String
  otros_documentos_urls : Option String
  fila_sheets : Nat
  deriving DecidableEq

/-- One Supabase call. -/
inductive SupabaseCall
  | queryVendedor (nombre : String)
  | queryCodigo (codigo : String)
  | insertPedido (row : Pedido)
  deriving DecidableEq

/-- The `data` object of the `?test=validation` response. -/
structure ValidationData where
  tieneVendedor : Bool
  tieneCodigo : Bool
  tieneMarca : Bool
  tieneRut : Bool
  tienePlan : Bool
  camposRecibidos : Nat
  deriving DecidableEq

/-- The JSON response (absent fields are `none`; an `OPTIONS` preflight
has no body, hence `success` is optional too). -/
structure Response where
  status : Nat
  success : Option Bool
  mode : Option String
  message : Option String
  validation : Option ValidationData
  timestamp : Option String
  fila : Option Nat
  pedidoId : Option String
  vendedorValidado : Option Bool
  codigoValidado : Option Bool
  deriving DecidableEq

/-- The two effect logs, in call order. -/
structure Effects where
  sheets : List SheetsCall
  supabase : List SupabaseCall
  deriving DecidableEq

/-- `toUpper` helper of the handler:
`(str) => (str ? String(str).toUpperCase() : "")`. -/
def jsUpperOpt (o : Option String) : String :=
  match o with
  | some s => if s = "" then "" else Js.toUpper s
  | none => ""

/-- `toLower` helper of the handler. -/
def jsLowerOpt (o : Option String) : String :=
  match o with
  | some s => if s = "" then "" else Js.toLower s
  | none => ""

/-- Template-literal interpolation: `undefined` renders as the string
`"undefined"`. -/
def jsTemplate (o : Option String) : String :=
  match o with
  | some s => s
  | none => "undefined"

/-- `Array.prototype.join(", ")`. -/
def joinComma : List String → String
  | [] => ""
  | [s] => s
  | s :: rest => s ++ ", " ++ joinComma rest

/-- `Array.isArray(x) ? x.join(", ") : ""`. -/
def arrJoin (o : Option (List String)) : String :=
  match o with
  | some l => joinComma l
  | none => ""

/-- `Array.isArray(x) && x.length > 0 ? x.join(", ") : null`. -/
def arrJoinOrNull (o : Option (List String)) : Option String :=
  match o with
  | some l => if l.length > 0 then some (joinComma l) else none
  | none => none

/-- `x?.join(", ")` (optional chaining). -/
def adicionalesJoin (o : Option (List String)) : Option String :=
  o.map joinComma

/-- `x || null` on an optional string. -/
def orNull (o : Option String) : Option String :=
  if Js.truthy o then o else none

/-- `rgu = [hasInternet, hasTelevision, hasTelefonia].filter(Boolean).length`. -/
def rguOf (fd : FormData) : Nat :=
  ([fd.hasInternet, fd.hasTelevision, fd.hasTelefonia].filter Js.truthyB).length

/-- JavaScript `s.trim()` restricted to the blank characters of form
input (space, tab, newline, carriage return). -/
def jsTrim (s : String) : String :=
  ⟨((s.data.dropWhile Char.isWhitespace).reverse.dropWhile Char.isWhitespace).reverse⟩

/-- The guard both lookups use:
`value && value.trim() && value !== " "`. -/
def checkNonBlank (o : Option String) : Bool :=
  Js.truthy o && decide (jsTrim (o.getD "") ≠ "") && decide (o ≠ some " ")

/-- Result of `.ilike(column, q).single()` against the rows of a
reference column: `ilike` with no wildcard is case-insensitive
equality, and `.single()` returns a row (non-null `data`) exactly when
one row matched. -/
def ilikeSingle (table : List String) (q : String) : Bool :=
  (table.filter (fun r => Js.toLower r = Js.toLower q)).length = 1

/-- `columnData`: the sheet columns in source order, with the upper or
lower casing the handler applies to each. -/
def columnData (fd : FormData) (timestamp : String) : List (String × Cell) :=
  [("J", .str (jsUpperOpt fd.comentarioVendedor)),
   ("K", .str (jsUpperOpt fd.selectedMarca)),
   ("P", .str (jsUpperOpt fd.selectedCodigo)),
   ("Q", .str timestamp),
   ("R", .str (jsUpperOpt fd.selectedTipoVenta)),
   ("S", .str (jsUpperOpt fd.selectedSegmento)),
   ("T", .str (jsUpperOpt fd.tipoAgente)),
   ("BC", .str (jsLowerOpt fd.emailEquipo)),
   ("BE", .str (jsUpperOpt fd.selectedVendedor)),
   ("AN", .str (jsUpperOpt fd.rut)),
   ("AO", .str (Js.toUpper (jsTemplate fd.nombres ++ " " ++ jsTemplate fd.apellidos))),
   ("AP", .str (jsUpperOpt fd.rutEmpresa)),
   ("AQ", .str (jsUpperOpt fd.nombreEmpresa)),
   ("AA", .str (jsUpperOpt fd.region)),
   ("AR", .str (jsUpperOpt fd.comuna)),
   ("AS", .str (jsUpperOpt fd.direccion)),
   ("AD", .str (jsUpperOpt fd.numeroContacto)),
   ("AT", .str (jsLowerOpt fd.email)),
   ("AU", .str (jsUpperOpt fd.selectedPlan)),
   ("AG", .str (jsUpperOpt (adicionalesJoin fd.selectedAdicionales))),
   ("BA", .num (rguOf fd)),
   ("AI", .str (jsUpperOpt fd.tipoCampana)),
   ("AJ", .str (arrJoin fd.rutFrontalUrls)),
   ("AK", .str (arrJoin fd.rutPosteriorUrls)),
   ("AL", .str (arrJoin fd.factibilidadUrls)),
   ("AM", .str (arrJoin fd.otrosDocumentosUrls))]

/-- The `values.batchUpdate` payload: every column of `columnData`
written at row `nextRow`. -/
def sheetRow (fd : FormData) (timestamp : String) (nextRow : Nat) : List CellWrite :=
  (columnData fd timestamp).map (fun cv => ⟨cv.1, nextRow, cv.2⟩)

/-- Whether the seller lookup finds the entered name. -/
def vendedorFound (fd : FormData) (b : Backend) : Bool :=
  checkNonBlank fd.selectedVendedor &&
    ilikeSingle b.vendedores (fd.selectedVendedor.getD "")

/-- Whether the code lookup finds the entered code. -/
def codigoFound (fd : FormData) (b : Backend) : Bool :=
  checkNonBlank fd.selectedCodigo &&
    ilikeSingle b.codigos (fd.selectedCodigo.getD "")

/-- `vendedorParaSupabase`. -/
def vendedorPara (fd : FormData) (b : Backend) : Option String :=
  if vendedorFound fd b then fd.selectedVendedor else none

/-- `equipoParaSupabase`: set (to the `equipo` field of the form) only when the
seller was found. -/
def equipoPara (fd : FormData) (b : Backend) : Option String :=
  if vendedorFound fd b then fd.equipo else none

/-- `codigoParaSupabase`. -/
def codigoPara (fd : FormData) (b : Backend) : Option String :=
  if codigoFound fd b then fd.selectedCodigo else none

/-- The object passed to `supabase.from("pedidos").insert(...)`. -/
def pedidoOf (fd : FormData) (codigoP vendedorP equipoP : Option String)
    (nextRow : Nat) : Pedido :=
  { observacion_vendedor := fd.comentarioVendedor
    marca := fd.selectedMarca
    codigo_vendedor := codigoP
    tipo_venta := fd.selectedTipoVenta
    segmento := fd.selectedSegmento
    tipo_agente := fd.tipoAgente
    equipo_id := equipoP
    vendedor_id := vendedorP
    rut := fd.rut
    nombres := fd.nombres
    apellidos := fd.apellidos
    rut_empresa := orNull fd.rutEmpresa
    nombre_empresa := orNull fd.nombreEmpresa
    region := fd.region
    comuna := fd.comuna
    direccion := fd.direccion
    numero_contacto := fd.numeroContacto
    email := fd.email
    plan := fd.selectedPlan
    productos_adicionales := orNull (adicionalesJoin fd.selectedAdicionales)
    rgu := rguOf fd
    tiene_internet := Js.truthyB fd.hasInternet
    tiene_television := Js.truthyB fd.hasTelevision
    tiene_telefonia := Js.truthyB fd.hasTelefonia
    velocidad_internet := orNull fd.velocidadInternet
    tipo_television := orNull fd.tipoTelevision
    fecha_agendamiento := orNull fd.fechaAgendamiento
    tramo_instalacion := orNull fd.tramoInstalacion
    rut_frontal_url := arrJoinOrNull fd.rutFrontalUrls
    rut_posterior_url := arrJoinOrNull fd.rutPosteriorUrls
    factibilidad_url := arrJoinOrNull fd.factibilidadUrls
    otros_documentos_urls := arrJoinOrNull fd.otrosDocumentosUrls
    fila_sheets := nextRow }

/-- All Google-Sheets calls of a non-validation run, in order: read
column `Q`, read the metadata, append one row whenever the `Fijo_EBSA`
tab was found (the source comment says SIEMPRE — always — add a row
before writing), and, unless in `?test=supabase` mode, the batch write
of the row at `nextRow = qColLen + 1`. -/
def sheetsEffects (req : Request) (b : Backend) : List SheetsCall :=
  [.getValues "Fijo_EBSA!Q:Q", .getSpreadsheet] ++
  (match b.fijoSheet with
    | some g => [.appendRows g.sheetId 1]
    | none => []) ++
  (if req.testMode ≠ some "supabase" then
    [.writeCells (sheetRow req.formData b.timestamp (b.qColLen + 1))]
  else [])

/-- All Supabase calls of a run that reaches phase 3: the two
conditional lookups and the insert. -/
def supabaseEffects (req : Request) (b : Backend) : List SupabaseCall :=
  (if checkNonBlank req.formData.selectedVendedor then
    [.queryVendedor (req.formData.selectedVendedor.getD "")] else []) ++
  (if checkNonBlank req.formData.selectedCodigo then
    [.queryCodigo (req.formData.selectedCodigo.getD "")] else []) ++
  [.insertPedido (pedidoOf req.formData
    (codigoPara req.formData b) (vendedorPara req.formData b)
    (equipoPara req.formData b) (b.qColLen + 1))]

/-- `pedido?.id`: the id of the inserted row when the insert succeeded. -/
def pedidoIdOf (b : Backend) : Option String :=
  if b.insertFails then none else some b.insertId

/-- The `/api/submit-form` handler as a pure function from request and
backend snapshot to response and issued calls.  A Supabase insert error
is logged and swallowed (`insertFails` only drops `pedidoId`); the
sheets calls are assumed not to throw (an exception would produce the
500 path, which no claim conditions on). -/
def handler (req : Request) (b : Backend) : Response × Effects :=
  if req.method = "OPTIONS" then
    (⟨200, none, none, none, none, none, none, none, none, none⟩, ⟨[], []⟩)
  else if req.method ≠ "POST" then
    (⟨405, some false, none, some "Method not allowed", none, none, none, none, none, none⟩,
      ⟨[], []⟩)
  else if req.testMode = some "validation" then
    (⟨200, some true, some "validation", some "Datos recibidos correctamente",
      some ⟨Js.truthy req.formData.selectedVendedor, Js.truthy req.formData.selectedCodigo,
        Js.truthy req.formData.selectedMarca, Js.truthy req.formData.rut,
        Js.truthy req.formData.selectedPlan, req.formData.numKeys⟩,
      none, none, none, none, none⟩, ⟨[], []⟩)
  else if req.testMode = some "sheets" then
    (⟨200, some true, some "sheets", some "Datos guardados solo en Google Sheets",
      none, some b.timestamp, some (b.qColLen + 1), none, none, none⟩,
      ⟨sheetsEffects req b, []⟩)
  else if req.testMode = some "supabase" then
    (⟨200, some true, some "supabase", some "Datos guardados solo en Supabase",
      none, none, none, pedidoIdOf b,
      some (Js.truthy (vendedorPara req.formData b)),
      some (Js.truthy (codigoPara req.formData b))⟩,
      ⟨sheetsEffects req b, supabaseEffects req b⟩)
  else
    (⟨200, some true, none, some "Formulario enviado exitosamente",
      none, some b.timestamp, none, pedidoIdOf b, none, none⟩,
      ⟨sheetsEffects req b, supabaseEffects req b⟩)

/-- The cell batches written by `values.batchUpdate` calls. -/
def writeBatches (e : Effects) : List (List CellWrite) :=
  e.sheets.filterMap (fun c =>
    match c with
    | .writeCells d => some d
    | _ => none)

/-- The `appendDimension` requests issued (sheetId, row count added). -/
def appendReqs (e : Effects) : List (Nat × Nat) :=
  e.sheets.filterMap (fun c =>
    match c with
    | .appendRows i n => some (i, n)
    | _ => none)

/-- The rows inserted into `pedidos`. -/
def insertedPedidos (e : Effects) : List Pedido :=
  e.supabase.filterMap (fun c =>
    match c with
    | .insertPedido p => some p
    | _ => none)

/-! ### Reduction lemmas for the handler -/

lemma handler_normal (req : Request) (b : Backend) (hm : req.method = "POST")
    (ht : req.testMode = none) :
    handler req b =
      (⟨200, some true, none, some "Formulario enviado exitosamente",
        none, some b.timestamp, none, pedidoIdOf b, none, none⟩,
        ⟨sheetsEffects req b, supabaseEffects req b⟩) := by
  unfold handler
  rw [hm, ht]
  simp

lemma handler_sheets_calls (req : Request) (b : Backend) (hm : req.method = "POST")
    (hval : req.testMode ≠ some "validation") :
    (handler req b).2.sheets = sheetsEffects req b := by
  unfold handler
  rw [hm]
  rw [if_neg (by decide : ¬ ("POST" = "OPTIONS"))]
  rw [if_neg (not_not_intro (rfl : "POST" = "POST"))]
  rw [if_neg hval]
  by_cases h3 : req.testMode = some "sheets"
  · rw [if_pos h3]
  · rw [if_neg h3]
    by_cases h4 : req.testMode = some "supabase"
    · rw [if_pos h4]
    · rw [if_neg h4]

lemma writeBatches_sheetsEffects (req : Request) (b : Backend) (l : List SupabaseCall)
    (h : req.testMode ≠ some "supabase") :
    writeBatches ⟨sheetsEffects req b, l⟩
      = [sheetRow req.formData b.timestamp (b.qColLen + 1)] := by
  unfold writeBatches sheetsEffects
  cases b.fijoSheet <;> simp [h, List.filterMap_append]

lemma insertedPedidos_supabaseEffects (req : Request) (b : Backend) (sl : List SheetsCall) :
    insertedPedidos ⟨sl, supabaseEffects req b⟩
      = [pedidoOf req.formData (codigoPara req.formData b) (vendedorPara req.formData b)
          (equipoPara req.formData b) (b.qColLen + 1)] := by
  unfold insertedPedidos supabaseEffects
  by_cases hv : checkNonBlank req.formData.selectedVendedor <;>
    by_cases hc : checkNonBlank req.formData.selectedCodigo <;>
      simp [hv, hc, List.filterMap_append]

/-! ### Concrete data used by the witnesses and the C7 counterexample -/

/-- A complete residential order payload. -/
def demoForm : FormData :=
  { selectedVendedor := some "Juan Perez", selectedCodigo := some "jp01"
    selectedMarca := some "VTR", selectedTipoVenta := some "nueva"
    selectedSegmento := some "residencial", tipoAgente := some "vendedor"
    emailEquipo := some "equipo@ebsa.cl", equipo := some "equipo norte"
    comentarioVendedor := some "sin comentarios", rut := some "12345678-9"
    nombres := some "Maria", apellidos := some "Lopez"
    rutEmpresa := none, nombreEmpresa := none
    region := some "metropolitana", comuna := some "santiago"
    direccion := some "Av. Libertador 123", numeroContacto := some "987654321"
    email := some "maria@example.com", selectedPlan := some "2 Play Plus Fibra Hogar - VTR"
    selectedAdicionales := some ["decodificador adicional"]
    hasInternet := some true, hasTelevision := some true, hasTelefonia := some false
    velocidadInternet := some "600MB", tipoTelevision := some "Plus"
    fechaAgendamiento := some "2026-01-15", tramoInstalacion := some "a"
    tipoCampana := some "terreno"
    rutFrontalUrls := some ["https://ebsaspa.cl/rut-frontal/123456789-frontal.jpg"]
    rutPosteriorUrls := none, factibilidadUrls := none, otrosDocumentosUrls := none
    numKeys := 33 }

/-- A normal-mode submission of `demoForm`. -/
def demoReq : Request := ⟨"POST", none, demoForm⟩

/-- The same submission with `?test=validation`. -/
def demoReqV : Request := ⟨"POST", some "validation", demoForm⟩

/-- A backend snapshot: 5 entries in column Q, the `Fijo_EBSA` tab found
with 1000 rows (ample room for row 6), the entered seller and code
present in their tables, and a succeeding insert. -/
def demoBackend : Backend :=
  ⟨5, some ⟨7, 1000⟩, ["juan perez"], ["jp01"], false, "uuid-1", "07/10/2026 12:00:00"⟩

/-- The same snapshot with a failing `pedidos` insert. -/
def demoBackendFail : Backend :=
  ⟨5, some ⟨7, 1000⟩, ["juan perez"], ["jp01"], true, "uuid-1", "07/10/2026 12:00:00"⟩

/-- The row `demoReq` inserts against `demoBackend`. -/
def demoPedido : Pedido :=
  pedidoOf demoReq.formData (codigoPara demoReq.formData demoBackend)
    (vendedorPara demoReq.formData demoBackend)
    (equipoPara demoReq.formData demoBackend) (demoBackend.qColLen + 1)

/-! ### Claims C1, C2, C6, C7, C9, C10 -/

/-- C1: in normal mode (no test query parameter), with the insert
succeeding, the handler issues exactly one cell-batch write, every cell
of it at row `nextRow = qColLen + 1`, and exactly one `pedidos` insert
whose `fila_sheets` equals that same `nextRow`. -/
theorem C1_dual_write (req : Request) (b : Backend)
    (hm : req.method = "POST") (ht : req.testMode = none)
    (_hok : b.insertFails = false) :
    writeBatches (handler req b).2 = [sheetRow req.formData b.timestamp (b.qColLen + 1)] ∧
    (∀ cw ∈ sheetRow req.formData b.timestamp (b.qColLen + 1), cw.row = b.qColLen + 1) ∧
    ∃ p, insertedPedidos (handler req b).2 = [p] ∧ p.fila_sheets = b.qColLen + 1 := by
  rw [handler_normal req b hm ht]
  refine ⟨writeBatches_sheetsEffects req b _ (by rw [ht]; simp), ?_, ?_⟩
  · intro cw hcw
    unfold sheetRow at hcw
    obtain ⟨cv, _, rfl⟩ := List.mem_map.mp hcw
    rfl
  · exact ⟨_, insertedPedidos_supabaseEffects req b _, rfl⟩

theorem C1_dual_write_witness :
    writeBatches (handler demoReq demoBackend).2
      = [sheetRow demoReq.formData demoBackend.timestamp (demoBackend.qColLen + 1)] ∧
    (∀ cw ∈ sheetRow demoReq.formData demoBackend.timestamp (demoBackend.qColLen + 1),
      cw.row = demoBackend.qColLen + 1) ∧
    ∃ p, insertedPedidos (handler demoReq demoBackend).2 = [p] ∧
      p.fila_sheets = demoBackend.qColLen + 1 :=
  C1_dual_write demoReq demoBackend rfl rfl rfl

/-- C2: in normal mode, when the `pedidos` insert fails, the handler
still answers 200 with `success: true` and no `pedidoId`, and the
cell-batch write issued before the failure is unchanged: the
spreadsheet row remains written (the error is only logged, never
propagated). -/
theorem C2_insert_failure_swallowed (req : Request) (b : Backend)
    (hm : req.method = "POST") (ht : req.testMode = none)
    (hfail : b.insertFails = true) :
    (handler req b).1.status = 200 ∧
    (handler req b).1.success = some true ∧
    (handler req b).1.pedidoId = none ∧
    writeBatches (handler req b).2
      = [sheetRow req.formData b.timestamp (b.qColLen + 1)] := by
  rw [handler_normal req b hm ht]
  refine ⟨rfl, rfl, ?_, writeBatches_sheetsEffects req b _ (by rw [ht]; simp)⟩
  show pedidoIdOf b = none
  unfold pedidoIdOf
  rw [hfail]
  rfl

theorem C2_insert_failure_swallowed_witness :
    (handler demoReq demoBackendFail).1.status = 200 ∧
    (handler demoReq demoBackendFail).1.success = some true ∧
    (handler demoReq demoBackendFail).1.pedidoId = none ∧
    writeBatches (handler demoReq demoBackendFail).2
      = [sheetRow demoReq.formData demoBackendFail.timestamp
          (demoBackendFail.qColLen + 1)] :=
  C2_insert_failure_swallowed demoReq demoBackendFail rfl rfl rfl

/-- C6: a POST with `?test=validation` returns a 200 success response
echoing the presence flags of `vendedor`, `codigo`, `marca`, `rut` and
`plan` plus the count of received fields, and issues no Google-Sheets
call and no Supabase call: the state of neither backend changes. -/
theorem C6_validation_mode (req : Request) (b : Backend)
    (hm : req.method = "POST") (ht : req.testMode = some "validation") :
    handler req b =
      (⟨200, some true, some "validation", some "Datos recibidos correctamente",
        some ⟨Js.truthy req.formData.selectedVendedor, Js.truthy req.formData.selectedCodigo,
          Js.truthy req.formData.selectedMarca, Js.truthy req.formData.rut,
          Js.truthy req.formData.selectedPlan, req.formData.numKeys⟩,
        none, none, none, none, none⟩, ⟨[], []⟩) := by
  unfold handler
  rw [hm, ht]
  simp

theorem C6_validation_mode_witness :
    handler demoReqV demoBackend =
      (⟨200, some true, some "validation", some "Datos recibidos correctamente",
        some ⟨Js.truthy demoReqV.formData.selectedVendedor,
          Js.truthy demoReqV.formData.selectedCodigo,
          Js.truthy demoReqV.formData.selectedMarca, Js.truthy demoReqV.formData.rut,
          Js.truthy demoReqV.formData.selectedPlan, demoReqV.formData.numKeys⟩,
        none, none, none, none, none⟩, ⟨[], []⟩) :=
  C6_validation_mode demoReqV demoBackend rfl rfl

/-- C7 as the spec states it is false: against `demoBackend` the sheet
has 1000 rows and the next row is 6 — room to spare — yet the handler
still issues a one-row `appendDimension` request, so the request is not
issued "only when the sheet does not already have room". -/
theorem C7_counterexample :
    ¬ (appendReqs (handler demoReq demoBackend).2 ≠ [] →
        (1000 : Nat) < demoBackend.qColLen + 1) := by decide

/-- C7 amended: the handler reads the length of column Q and then,
whenever the `Fijo_EBSA` tab is found in the metadata, unconditionally
issues a one-row `appendDimension` request — regardless of available
room — before the batch write of the row (the only sheets calls after
the append are cell-batch writes). -/
theorem C7_append_always (req : Request) (b : Backend) (g : GridProps)
    (hm : req.method = "POST") (hval : req.testMode ≠ some "validation")
    (hg : b.fijoSheet = some g) :
    ∃ rest, (handler req b).2.sheets
      = [SheetsCall.getValues "Fijo_EBSA!Q:Q", SheetsCall.getSpreadsheet,
         SheetsCall.appendRows g.sheetId 1] ++ rest ∧
      ∀ c ∈ rest, ∃ d, c = SheetsCall.writeCells d := by
  rw [handler_sheets_calls req b hm hval]
  unfold sheetsEffects
  rw [hg]
  by_cases h : req.testMode = some "supabase"
  · refine ⟨[], ?_, by simp⟩
    rw [if_neg (not_not_intro h)]
    simp
  · refine ⟨[SheetsCall.writeCells (sheetRow req.formData b.timestamp (b.qColLen + 1))],
      ?_, ?_⟩
    · rw [if_pos h]
      simp
    · intro c hc
      rw [List.mem_singleton] at hc
      exact ⟨_, hc⟩

theorem C7_append_always_witness :
    ∃ rest, (handler demoReq demoBackend).2.sheets
      = [SheetsCall.getValues "Fijo_EBSA!Q:Q", SheetsCall.getSpreadsheet,
         SheetsCall.appendRows (7 : Nat) 1] ++ rest ∧
      ∀ c ∈ rest, ∃ d, c = SheetsCall.writeCells d :=
  C7_append_always demoReq demoBackend ⟨7, 1000⟩ rfl (by decide) rfl

/-- C9: every row the handler inserts into `pedidos` stores an `rgu`
equal to the number of `true` flags among the stored `tiene_internet`,
`tiene_television`, `tiene_telefonia` — both sides being derived from
the same `hasInternet` / `hasTelevision` / `hasTelefonia` inputs. -/
theorem C9_rgu_invariant (req : Request) (b : Backend) (p : Pedido)
    (hp : p ∈ insertedPedidos (handler req b).2) :
    p.rgu = ([p.tiene_internet, p.tiene_television, p.tiene_telefonia].filter
      (fun x => x)).length := by
  unfold handler at hp
  by_cases h0 : req.method = "OPTIONS"
  · rw [if_pos h0] at hp
    simp [insertedPedidos] at hp
  rw [if_neg h0] at hp
  by_cases h1 : req.method ≠ "POST"
  · rw [if_pos h1] at hp
    simp [insertedPedidos] at hp
  rw [if_neg h1] at hp
  by_cases h2 : req.testMode = some "validation"
  · rw [if_pos h2] at hp
    simp [insertedPedidos] at hp
  rw [if_neg h2] at hp
  by_cases h3 : req.testMode = some "sheets"
  · rw [if_pos h3] at hp
    simp [insertedPedidos] at hp
  rw [if_neg h3] at hp
  have hp2 : p = pedidoOf req.formData (codigoPara req.formData b)
      (vendedorPara req.formData b) (equipoPara req.formData b) (b.qColLen + 1) := by
    by_cases h4 : req.testMode = some "supabase"
    · rw [if_pos h4] at hp
      rw [insertedPedidos_supabaseEffects] at hp
      simpa using hp
    · rw [if_neg h4] at hp
      rw [insertedPedidos_supabaseEffects] at hp
      simpa using hp
  subst hp2
  show rguOf req.formData = _
  cases hA : Js.truthyB req.formData.hasInternet <;>
    cases hB : Js.truthyB req.formData.hasTelevision <;>
      cases hC : Js.truthyB req.formData.hasTelefonia <;>
        simp [rguOf, pedidoOf, List.filter, hA, hB, hC]

theorem C9_rgu_invariant_witness :
    demoPedido.rgu = ([demoPedido.tiene_internet, demoPedido.tiene_television,
      demoPedido.tiene_telefonia].filter (fun x => x)).length :=
  C9_rgu_invariant demoReq demoBackend demoPedido (by decide)

/-- The claim-level "seller name is non-blank": a present value whose
trimmed form is non-empty (equivalent to the guard in the source:
`value && value.trim() && value !== " "`). -/
def SellerNonBlank (o : Option String) : Prop :=
  ∃ s, o = some s ∧ jsTrim s ≠ ""

lemma checkNonBlank_iff (o : Option String) :
    checkNonBlank o = true ↔ SellerNonBlank o := by
  cases o with
  | none => simp [checkNonBlank, SellerNonBlank, Js.truthy]
  | some s =>
    simp only [checkNonBlank, Js.truthy, SellerNonBlank, Bool.and_eq_true,
      decide_eq_true_eq, Option.getD_some]
    constructor
    · rintro ⟨⟨h1, h2⟩, h3⟩
      exact ⟨s, rfl, h2⟩
    · rintro ⟨t, ht, htrim⟩
      obtain rfl : s = t := by injection ht
      refine ⟨⟨?_, htrim⟩, ?_⟩
      · intro he
        exact htrim (by rw [he]; rfl)
      · intro he
        obtain rfl : s = " " := by injection he
        exact htrim (by decide)

/-- C10: in normal mode, the `equipo_id` stored on the inserted row is the submitted
`equipo` value exactly when the entered seller name is non-blank and the
case-insensitive `vendedores` lookup (`ilike(...).single()`) returns a
row; in every other case — blank seller, or lookup returning no row —
`equipo_id` is `null` even when an `equipo` value was submitted. -/
theorem C10_equipo_id (req : Request) (b : Backend)
    (hm : req.method = "POST") (ht : req.testMode = none)
    (p : Pedido) (hp : p ∈ insertedPedidos (handler req b).2) :
    (SellerNonBlank req.formData.selectedVendedor ∧
        ilikeSingle b.vendedores (req.formData.selectedVendedor.getD "") = true →
      p.equipo_id = req.formData.equipo) ∧
    (¬ (SellerNonBlank req.formData.selectedVendedor ∧
        ilikeSingle b.vendedores (req.formData.selectedVendedor.getD "") = true) →
      p.equipo_id = none) := by
  rw [handler_normal req b hm ht] at hp
  rw [insertedPedidos_supabaseEffects] at hp
  have hp2 : p = pedidoOf req.formData (codigoPara req.formData b)
      (vendedorPara req.formData b) (equipoPara req.formData b) (b.qColLen + 1) := by
    simpa using hp
  subst hp2
  constructor
  · rintro ⟨hnb, hfound⟩
    show equipoPara req.formData b = req.formData.equipo
    unfold equipoPara vendedorFound
    rw [if_pos]
    rw [Bool.and_eq_true]
    exact ⟨(checkNonBlank_iff _).mpr hnb, hfound⟩
  · intro hn
    show equipoPara req.formData b = none
    unfold equipoPara
    rw [if_neg]
    intro hvf
    unfold vendedorFound at hvf
    rw [Bool.and_eq_true] at hvf
    exact hn ⟨(checkNonBlank_iff _).mp hvf.1, hvf.2⟩

theorem C10_equipo_id_witness :
    (SellerNonBlank demoReq.formData.selectedVendedor ∧
        ilikeSingle demoBackend.vendedores
          (demoReq.formData.selectedVendedor.getD "") = true →
      demoPedido.equipo_id = demoReq.formData.equipo) ∧
    (¬ (SellerNonBlank demoReq.formData.selectedVendedor ∧
        ilikeSingle demoBackend.vendedores
          (demoReq.formData.selectedVendedor.getD "") = true) →
      demoPedido.equipo_id = none) :=
  C10_equipo_id demoReq demoBackend rfl rfl demoPedido (by decide)

example : demoPedido.equipo_id = some "equipo norte" := by decide
example : demoPedido.fila_sheets = 6 := by decide

end SubmitForm
